import Mathlib

/-!
Shallow embedding of the provider-abstraction and fallback layer of
`src/index.ts` (a GraphQL gateway over two LLM chat-completion providers).

The outbound HTTP layer is modelled as a pure oracle `Net` mapping each
issued chat request to the (already parsed) upstream response.  Every
embedded operation returns, besides its `Except` result, the list of
HTTP requests it issued, so that claims about "no network call is made"
or "retries exactly once" are directly expressible.

JavaScript truthiness on strings (`model || default`, `if (!apiKey)`,
`if (env.DEEPSEEK_API_KEY)`) is modelled by the empty-string test, and
an absent (`undefined`) value by `Option.none`.
-/

namespace ApolloServer

/-- `role: 'system' | 'user' | 'assistant'` of the `AIMessage` interface. -/
inductive Role where
  | system
  | user
  | assistant
deriving DecidableEq, Repr

/-- `interface AIMessage { role; content }`. -/
structure AIMessage where
  role : Role
  content : String
deriving DecidableEq, Repr

/-- Upstream usage object `{prompt_tokens, completion_tokens, total_tokens}`. -/
structure Usage where
  prompt_tokens : Nat
  completion_tokens : Nat
  total_tokens : Nat
deriving DecidableEq, Repr

/-- One element of the upstream `choices` array (only the `message` field is read). -/
structure Choice where
  message : AIMessage
deriving DecidableEq, Repr

/-- The two providers of the union type `'openai' | 'deepseek'`. -/
inductive Provider where
  | openai
  | deepseek
deriving DecidableEq, Repr

/-- The string a `Provider` is spelled as in the source. -/
def Provider.str : Provider → String
  | Provider.openai => "openai"
  | Provider.deepseek => "deepseek"

/-- An outbound chat-completion POST request: which provider endpoint it goes
to, the `model` field of its JSON body and the `messages` field.  (The
`temperature: 0.7` field and the bearer header are constant and carry no
information relevant to the claims.) -/
structure ChatRequest where
  provider : Provider
  model : String
  messages : List AIMessage
deriving DecidableEq, Repr

/-- A parsed upstream HTTP response.  `ok`/`status` mirror `Response.ok` /
`Response.status`; `errType` is `errorData.error?.type` as read by the
OpenAI error path; `bodyText` stands for the serialized error body (the
`JSON.stringify(errorData)` resp. `response.text()` the error messages
embed); `choices`/`usage` are the fields of the success body. -/
structure UpstreamResponse where
  ok : Bool
  status : Nat
  errType : Option String
  bodyText : String
  choices : List Choice
  usage : Option Usage
deriving DecidableEq, Repr

/-- The network oracle: what the upstream returns for each issued request. -/
abbrev Net := ChatRequest → UpstreamResponse

/-- `interface Env` (worker bindings): two API keys (empty string when the
binding is blank), optional environment tag, optional default model. -/
structure Env where
  OPENAI_API_KEY : String
  DEEPSEEK_API_KEY : String
  ENVIRONMENT : Option String
  DEFAULT_MODEL : Option String
deriving DecidableEq, Repr

/-- JS `a || b` on strings: the empty string is falsy. -/
def jsOrStr (a b : String) : String :=
  if a = "" then b else a

/-- JS `a || b` where `a` may be `undefined`: `none` and `some ""` are falsy. -/
def jsOrOpt (a : Option String) (b : String) : String :=
  match a with
  | none => b
  | some s => jsOrStr s b

/-- The errors thrown by the provider layer of `index.ts`:
`missingCredential p` is the `Error('<P> API key is not configured')`;
`quotaExceeded msg` is the distinct error the OpenAI client throws on an
`insufficient_quota` error body, carrying its user-facing message;
`upstream p status body` is the generic
`Error('<P> API error: <status> <body>')`. -/
inductive AIError where
  | missingCredential (provider : Provider)
  | quotaExceeded (msg : String)
  | upstream (provider : Provider) (status : Nat) (body : String)
deriving DecidableEq, Repr

/-- The normalized `{ content, usage? }` a provider client resolves with. -/
structure ClientResult where
  content : String
  usage : Option Usage
deriving DecidableEq, Repr

/-- `data.choices[0]?.message.content || 'No response'`. -/
def extractContent (choices : List Choice) : String :=
  match choices.head? with
  | none => "No response"
  | some c => jsOrStr c.message.content "No response"

/-- `callOpenAI(messages, apiKey, model)` of `index.ts` (lines 59-99).
Checks `if (!apiKey)` before fetching; on a non-ok response inspects
`errorData.error?.type === 'insufficient_quota'` and throws the distinct
balance error, else the generic upstream error; on an ok response extracts
the first choice's content (substituting `'No response'`) and passes the
usage object through.  The second component is the list of HTTP requests
issued. -/
def callOpenAI (messages : List AIMessage) (apiKey : String) (net : Net)
    (model : String) : Except AIError ClientResult × List ChatRequest :=
  if apiKey = "" then
    (Except.error (AIError.missingCredential Provider.openai), [])
  else
    let req : ChatRequest := ⟨Provider.openai, model, messages⟩
    let resp := net req
    if resp.ok = false then
      if resp.errType = some "insufficient_quota" then
        (Except.error (AIError.quotaExceeded "OpenAI账户余额不足，请充值后再试"), [req])
      else
        (Except.error (AIError.upstream Provider.openai resp.status resp.bodyText), [req])
    else
      (Except.ok ⟨extractContent resp.choices, resp.usage⟩, [req])

/-- `callDeepSeek(messages, apiKey, model)` of `index.ts` (lines 102-144).
Same shape as `callOpenAI` but with no quota inspection: every non-ok
response becomes the generic upstream error. -/
def callDeepSeek (messages : List AIMessage) (apiKey : String) (net : Net)
    (model : String) : Except AIError ClientResult × List ChatRequest :=
  if apiKey = "" then
    (Except.error (AIError.missingCredential Provider.deepseek), [])
  else
    let req : ChatRequest := ⟨Provider.deepseek, model, messages⟩
    let resp := net req
    if resp.ok = false then
      (Except.error (AIError.upstream Provider.deepseek resp.status resp.bodyText), [req])
    else
      (Except.ok ⟨extractContent resp.choices, resp.usage⟩, [req])

/-- The `{ content, usage?, provider }` the coordinator resolves with. -/
structure CoordResult where
  content : String
  usage : Option Usage
  provider : Provider
deriving DecidableEq, Repr

/-- `callAI(messages, env, provider, model?)` of `index.ts` (lines 147-204).
Primary call: DeepSeek with `model || 'deepseek-chat'`, or OpenAI with
`model || env.DEFAULT_MODEL || 'deepseek-chat'`.  On any failure: if the
preferred provider was openai and `env.DEEPSEEK_API_KEY` is truthy, one
retry against DeepSeek with the fixed model `'deepseek-chat'`; if it was
deepseek and `env.OPENAI_API_KEY` is truthy, one retry against OpenAI with
`'gpt-3.5-turbo'`; otherwise the original error is rethrown. -/
def callAI (messages : List AIMessage) (env : Env) (net : Net)
    (provider : Provider) (model : Option String) :
    Except AIError CoordResult × List ChatRequest :=
  let primary :=
    match provider with
    | Provider.deepseek =>
        callDeepSeek messages env.DEEPSEEK_API_KEY net (jsOrOpt model "deepseek-chat")
    | Provider.openai =>
        callOpenAI messages env.OPENAI_API_KEY net
          (jsOrOpt model (jsOrOpt env.DEFAULT_MODEL "deepseek-chat"))
  match primary.1 with
  | Except.ok r => (Except.ok ⟨r.content, r.usage, provider⟩, primary.2)
  | Except.error e =>
    match provider with
    | Provider.openai =>
      if env.DEEPSEEK_API_KEY ≠ "" then
        let fb := callDeepSeek messages env.DEEPSEEK_API_KEY net "deepseek-chat"
        match fb.1 with
        | Except.ok r => (Except.ok ⟨r.content, r.usage, Provider.deepseek⟩, primary.2 ++ fb.2)
        | Except.error e2 => (Except.error e2, primary.2 ++ fb.2)
      else
        (Except.error e, primary.2)
    | Provider.deepseek =>
      if env.OPENAI_API_KEY ≠ "" then
        let fb := callOpenAI messages env.OPENAI_API_KEY net "gpt-3.5-turbo"
        match fb.1 with
        | Except.ok r => (Except.ok ⟨r.content, r.usage, Provider.openai⟩, primary.2 ++ fb.2)
        | Except.error e2 => (Except.error e2, primary.2 ++ fb.2)
      else
        (Except.error e, primary.2)

/-- The GraphQL `Usage` output type `{promptTokens!, completionTokens!, totalTokens!}`. -/
structure GqlUsage where
  promptTokens : Nat
  completionTokens : Nat
  totalTokens : Nat
deriving DecidableEq, Repr

/-- The ternary every resolver applies to `result.usage`:
`result.usage ? {promptTokens, completionTokens, totalTokens} : {0, 0, 0}`. -/
def normalizeUsage : Option Usage → GqlUsage
  | some u => ⟨u.prompt_tokens, u.completion_tokens, u.total_tokens⟩
  | none => ⟨0, 0, 0⟩

/-- The GraphQL `AIResponse` output type. -/
structure AIResponse where
  content : String
  model : String
  provider : String
  usage : GqlUsage
deriving DecidableEq, Repr

/-- Resolver-level errors: each resolver rethrows the underlying error
wrapped in its own prefixed message (`'ChatGPT error: …'`,
`'DeepSeek error: …'`, `'AI query failed: …'`). -/
inductive ResolverError where
  | chatGPTError (e : AIError)
  | deepseekError (e : AIError)
  | askAIError (e : AIError)
deriving DecidableEq, Repr

/-- The `chatGPT(prompt, model)` resolver (lines 276-301): default model
`'gpt-3.5-turbo'`, direct `callOpenAI`, echoes the argument model,
provider `'openai'`, usage normalized by the ternary. -/
def chatGPTResolver (prompt : String) (model : Option String) (env : Env)
    (net : Net) : Except ResolverError AIResponse × List ChatRequest :=
  let m := model.getD "gpt-3.5-turbo"
  let msgs : List AIMessage := [⟨Role.user, prompt⟩]
  let result := callOpenAI msgs env.OPENAI_API_KEY net m
  match result.1 with
  | Except.ok r => (Except.ok ⟨r.content, m, "openai", normalizeUsage r.usage⟩, result.2)
  | Except.error e => (Except.error (ResolverError.chatGPTError e), result.2)

/-- The `deepseek(prompt, model)` resolver (lines 304-329): default model
`'deepseek-chat'`, direct `callDeepSeek`. -/
def deepseekResolver (prompt : String) (model : Option String) (env : Env)
    (net : Net) : Except ResolverError AIResponse × List ChatRequest :=
  let m := model.getD "deepseek-chat"
  let msgs : List AIMessage := [⟨Role.user, prompt⟩]
  let result := callDeepSeek msgs env.DEEPSEEK_API_KEY net m
  match result.1 with
  | Except.ok r => (Except.ok ⟨r.content, m, "deepseek", normalizeUsage r.usage⟩, result.2)
  | Except.error e => (Except.error (ResolverError.deepseekError e), result.2)

/-- The `askAI(prompt, provider, model)` resolver (lines 332-357): default
provider `'openai'`, delegates to `callAI`, and reports
`model || (provider === 'deepseek' ? 'deepseek-chat' : 'gpt-3.5-turbo')`
as the `model` field together with the provider that actually answered. -/
def askAIResolver (prompt : String) (provider : Option Provider)
    (model : Option String) (env : Env) (net : Net) :
    Except ResolverError AIResponse × List ChatRequest :=
  let p := provider.getD Provider.openai
  let msgs : List AIMessage := [⟨Role.user, prompt⟩]
  let result := callAI msgs env net p model
  match result.1 with
  | Except.ok r =>
    (Except.ok ⟨r.content,
      jsOrOpt model
        (match p with
         | Provider.deepseek => "deepseek-chat"
         | Provider.openai => "gpt-3.5-turbo"),
      r.provider.str, normalizeUsage r.usage⟩, result.2)
  | Except.error e => (Except.error (ResolverError.askAIError e), result.2)

/-! ### Helper lemmas shared by the claim theorems -/

/-- With a non-empty key, `callOpenAI` issues exactly its one request. -/
theorem callOpenAI_snd (msgs : List AIMessage) (key : String) (net : Net)
    (m : String) (h : key ≠ "") :
    (callOpenAI msgs key net m).2 = [⟨Provider.openai, m, msgs⟩] := by
  simp only [callOpenAI, if_neg h]
  split <;> [skip; rfl]
  split <;> rfl

/-- With a non-empty key, `callDeepSeek` issues exactly its one request. -/
theorem callDeepSeek_snd (msgs : List AIMessage) (key : String) (net : Net)
    (m : String) (h : key ≠ "") :
    (callDeepSeek msgs key net m).2 = [⟨Provider.deepseek, m, msgs⟩] := by
  simp only [callDeepSeek, if_neg h]
  split <;> rfl

/-- With an empty key, `callOpenAI` fails with the credential error and
issues no request. -/
theorem callOpenAI_emptyKey (msgs : List AIMessage) (net : Net) (m : String) :
    callOpenAI msgs "" net m =
      (Except.error (AIError.missingCredential Provider.openai), []) := rfl

/-- With an empty key, `callDeepSeek` fails with the credential error and
issues no request. -/
theorem callDeepSeek_emptyKey (msgs : List AIMessage) (net : Net) (m : String) :
    callDeepSeek msgs "" net m =
      (Except.error (AIError.missingCredential Provider.deepseek), []) := rfl

/-- On an ok upstream response, `callOpenAI` succeeds with the extracted
content and the passed-through usage. -/
theorem callOpenAI_ok (msgs : List AIMessage) (key : String) (net : Net)
    (m : String) (h : key ≠ "")
    (hok : (net ⟨Provider.openai, m, msgs⟩).ok = true) :
    (callOpenAI msgs key net m).1 =
      Except.ok ⟨extractContent (net ⟨Provider.openai, m, msgs⟩).choices,
        (net ⟨Provider.openai, m, msgs⟩).usage⟩ := by
  simp only [callOpenAI, if_neg h, hok]
  rfl

/-- On an ok upstream response, `callDeepSeek` succeeds with the extracted
content and the passed-through usage. -/
theorem callDeepSeek_ok (msgs : List AIMessage) (key : String) (net : Net)
    (m : String) (h : key ≠ "")
    (hok : (net ⟨Provider.deepseek, m, msgs⟩).ok = true) :
    (callDeepSeek msgs key net m).1 =
      Except.ok ⟨extractContent (net ⟨Provider.deepseek, m, msgs⟩).choices,
        (net ⟨Provider.deepseek, m, msgs⟩).usage⟩ := by
  simp only [callDeepSeek, if_neg h, hok]
  rfl

/-- Whenever an OpenAI key is present, the first request the coordinator's
openai path issues carries the model `model || env.DEFAULT_MODEL || 'deepseek-chat'`. -/
theorem callAI_openai_trace_head (msgs : List AIMessage) (env : Env) (net : Net)
    (model : Option String) (hk : env.OPENAI_API_KEY ≠ "") :
    (callAI msgs env net Provider.openai model).2.head? =
      some ⟨Provider.openai, jsOrOpt model (jsOrOpt env.DEFAULT_MODEL "deepseek-chat"), msgs⟩ := by
  have ht := callOpenAI_snd msgs env.OPENAI_API_KEY net
    (jsOrOpt model (jsOrOpt env.DEFAULT_MODEL "deepseek-chat")) hk
  simp only [callAI]
  split
  · simp [ht]
  · split
    · split <;> simp [ht]
    · simp [ht]

/-! ### Concrete fixtures used by the witnesses -/

/-- A one-message conversation, as every resolver builds from its prompt. -/
def msgs1 : List AIMessage := [⟨Role.user, "hi"⟩]

/-- A network where every request succeeds with content `"hello"` and a
usage object. -/
def netAllOk : Net := fun _ =>
  ⟨true, 200, none, "", [⟨⟨Role.assistant, "hello"⟩⟩], some ⟨3, 4, 7⟩⟩

/-- A network where every request fails with HTTP 500 and body `"boom"`. -/
def netAllFail : Net := fun _ => ⟨false, 500, none, "boom", [], none⟩

/-- A network where every request fails with an `insufficient_quota` error
body. -/
def netQuota : Net := fun _ =>
  ⟨false, 429, some "insufficient_quota", "quota", [], none⟩

/-- A network where every request succeeds but the body has an empty
`choices` array and no usage. -/
def netNoChoices : Net := fun _ => ⟨true, 200, none, "", [], none⟩

/-- A network where every request succeeds with a first choice whose
message content is empty. -/
def netEmptyContent : Net := fun _ =>
  ⟨true, 200, none, "", [⟨⟨Role.assistant, ""⟩⟩], none⟩

/-- A network where DeepSeek requests succeed and OpenAI requests fail. -/
def netDSOkOAFail : Net := fun req =>
  match req.provider with
  | Provider.deepseek => netAllOk req
  | Provider.openai => netAllFail req

/-- A network where OpenAI requests succeed and DeepSeek requests fail. -/
def netOAOkDSFail : Net := fun req =>
  match req.provider with
  | Provider.deepseek => netAllFail req
  | Provider.openai => netAllOk req

/-! ### Claim theorems -/

/-- C7: every Provider Client invoked with an empty API key fails
immediately with its missing-credential error and issues no outbound HTTP
request at all. -/
theorem clients_empty_key_no_request (msgs : List AIMessage) (net : Net)
    (m m' : String) :
    callOpenAI msgs "" net m =
      (Except.error (AIError.missingCredential Provider.openai), []) ∧
    callDeepSeek msgs "" net m' =
      (Except.error (AIError.missingCredential Provider.deepseek), []) :=
  ⟨rfl, rfl⟩

/-- C5: on a non-2xx upstream response, the OpenAI client raises the
distinct quota error (with the insufficient-balance user-facing message)
exactly when the error body's `error.type` is `insufficient_quota`, and a
generic upstream error carrying status and body otherwise; the DeepSeek
client always raises the generic upstream error, whatever the error body
looks like. -/
theorem clients_error_asymmetry (msgs : List AIMessage) (key : String)
    (net : Net) (m : String) (hk : key ≠ "") :
    ((net ⟨Provider.openai, m, msgs⟩).ok = false →
      (net ⟨Provider.openai, m, msgs⟩).errType = some "insufficient_quota" →
      (callOpenAI msgs key net m).1 =
        Except.error (AIError.quotaExceeded "OpenAI账户余额不足，请充值后再试")) ∧
    ((net ⟨Provider.openai, m, msgs⟩).ok = false →
      (net ⟨Provider.openai, m, msgs⟩).errType ≠ some "insufficient_quota" →
      (callOpenAI msgs key net m).1 =
        Except.error (AIError.upstream Provider.openai
          (net ⟨Provider.openai, m, msgs⟩).status
          (net ⟨Provider.openai, m, msgs⟩).bodyText)) ∧
    ((net ⟨Provider.deepseek, m, msgs⟩).ok = false →
      (callDeepSeek msgs key net m).1 =
        Except.error (AIError.upstream Provider.deepseek
          (net ⟨Provider.deepseek, m, msgs⟩).status
          (net ⟨Provider.deepseek, m, msgs⟩).bodyText)) := by
  refine ⟨fun hok hq => ?_, fun hok hq => ?_, fun hok => ?_⟩
  · simp only [callOpenAI, if_neg hk, hok, hq, if_true]
  · simp only [callOpenAI, if_neg hk, hok, if_neg hq, if_true]
  · simp only [callDeepSeek, if_neg hk, hok, if_true]

/-- Witness for C5 at concrete inputs: a quota-marked failure, a plain
failure, and a quota-marked failure hitting the DeepSeek client. -/
theorem clients_error_asymmetry_witness :
    ((callOpenAI msgs1 "k" netQuota "m").1 =
      Except.error (AIError.quotaExceeded "OpenAI账户余额不足，请充值后再试")) ∧
    ((callOpenAI msgs1 "k" netAllFail "m").1 =
      Except.error (AIError.upstream Provider.openai 500 "boom")) ∧
    ((callDeepSeek msgs1 "k" netQuota "m").1 =
      Except.error (AIError.upstream Provider.deepseek 429 "quota")) :=
  ⟨(clients_error_asymmetry msgs1 "k" netQuota "m" (by decide)).1 rfl rfl,
   (clients_error_asymmetry msgs1 "k" netAllFail "m" (by decide)).2.1 rfl (by decide),
   (clients_error_asymmetry msgs1 "k" netQuota "m" (by decide)).2.2 rfl⟩

/-- A body whose first choice is missing or has empty content extracts to
the literal `"No response"`. -/
theorem extractContent_no_response (choices : List Choice)
    (h : choices.head? = none ∨
      ∃ c, choices.head? = some c ∧ c.message.content = "") :
    extractContent choices = "No response" := by
  rcases h with h | ⟨c, h, hc⟩
  · simp [extractContent, h]
  · simp [extractContent, h, hc, jsOrStr]

/-- C6: on a 2xx response whose body lacks `choices[0].message.content`
(empty choices array, or first choice with empty content), each client
still succeeds, with content `"No response"`. -/
theorem clients_no_response_on_missing_content (msgs : List AIMessage)
    (key : String) (net : Net) (m : String) (hk : key ≠ "") :
    ((net ⟨Provider.openai, m, msgs⟩).ok = true →
      ((net ⟨Provider.openai, m, msgs⟩).choices.head? = none ∨
        ∃ c, (net ⟨Provider.openai, m, msgs⟩).choices.head? = some c ∧
          c.message.content = "") →
      (callOpenAI msgs key net m).1 =
        Except.ok ⟨"No response", (net ⟨Provider.openai, m, msgs⟩).usage⟩) ∧
    ((net ⟨Provider.deepseek, m, msgs⟩).ok = true →
      ((net ⟨Provider.deepseek, m, msgs⟩).choices.head? = none ∨
        ∃ c, (net ⟨Provider.deepseek, m, msgs⟩).choices.head? = some c ∧
          c.message.content = "") →
      (callDeepSeek msgs key net m).1 =
        Except.ok ⟨"No response", (net ⟨Provider.deepseek, m, msgs⟩).usage⟩) := by
  refine ⟨fun hok h => ?_, fun hok h => ?_⟩
  · simp only [callOpenAI, if_neg hk, hok, extractContent_no_response _ h]
    rfl
  · simp only [callDeepSeek, if_neg hk, hok, extractContent_no_response _ h]
    rfl

/-- Witness for C6: an empty `choices` array on the OpenAI side and an
empty-content first choice on the DeepSeek side. -/
theorem clients_no_response_witness :
    ((callOpenAI msgs1 "k" netNoChoices "m").1 =
      Except.ok ⟨"No response", none⟩) ∧
    ((callDeepSeek msgs1 "k" netEmptyContent "m").1 =
      Except.ok ⟨"No response", none⟩) :=
  ⟨(clients_no_response_on_missing_content msgs1 "k" netNoChoices "m"
      (by decide)).1 rfl (Or.inl rfl),
   (clients_no_response_on_missing_content msgs1 "k" netEmptyContent "m"
      (by decide)).2 rfl (Or.inr ⟨⟨⟨Role.assistant, ""⟩⟩, rfl, rfl⟩)⟩

/-- C2: in the coordinator's openai path the model actually sent upstream
is the explicit override if given, else the configured default model if
set, else the literal `'deepseek-chat'` (the other provider's default). -/
theorem coordinator_openai_model_resolution (msgs : List AIMessage)
    (env : Env) (net : Net) (model : Option String)
    (hk : env.OPENAI_API_KEY ≠ "") :
    (∀ m, model = some m → m ≠ "" →
      (callAI msgs env net Provider.openai model).2.head? =
        some ⟨Provider.openai, m, msgs⟩) ∧
    (∀ d, model = none → env.DEFAULT_MODEL = some d → d ≠ "" →
      (callAI msgs env net Provider.openai model).2.head? =
        some ⟨Provider.openai, d, msgs⟩) ∧
    (model = none → env.DEFAULT_MODEL = none →
      (callAI msgs env net Provider.openai model).2.head? =
        some ⟨Provider.openai, "deepseek-chat", msgs⟩) := by
  have h := callAI_openai_trace_head msgs env net model hk
  refine ⟨fun m hm hne => ?_, fun d hm hd hne => ?_, fun hm hd => ?_⟩
  · rw [h, hm]
    simp [jsOrOpt, jsOrStr, hne]
  · rw [h, hm, hd]
    simp [jsOrOpt, jsOrStr, hne]
  · rw [h, hm, hd]
    rfl

/-- Witness for C2: each of the three resolution cases at a concrete
environment. -/
theorem coordinator_openai_model_resolution_witness :
    ((callAI msgs1 ⟨"k", "", none, none⟩ netAllOk Provider.openai
        (some "m1")).2.head? = some ⟨Provider.openai, "m1", msgs1⟩) ∧
    ((callAI msgs1 ⟨"k", "", none, some "dm"⟩ netAllOk Provider.openai
        none).2.head? = some ⟨Provider.openai, "dm", msgs1⟩) ∧
    ((callAI msgs1 ⟨"k", "", none, none⟩ netAllOk Provider.openai
        none).2.head? = some ⟨Provider.openai, "deepseek-chat", msgs1⟩) :=
  ⟨(coordinator_openai_model_resolution msgs1 ⟨"k", "", none, none⟩ netAllOk
      (some "m1") (by decide)).1 "m1" rfl (by decide),
   (coordinator_openai_model_resolution msgs1 ⟨"k", "", none, some "dm"⟩
      netAllOk none (by decide)).2.1 "dm" rfl rfl (by decide),
   (coordinator_openai_model_resolution msgs1 ⟨"k", "", none, none⟩ netAllOk
      none (by decide)).2.2 rfl rfl⟩

/-- C1: when the preferred provider fails, the coordinator retries exactly
once against the alternate provider when its credential is configured --
with the fixed model `'deepseek-chat'` (openai preferred) resp.
`'gpt-3.5-turbo'` (deepseek preferred), ignoring any original override --
and returns the fallback's successful result annotated with the alternate
provider; when the fallback condition fails, the original error propagates
unchanged with no further request. -/
theorem coordinator_fallback (msgs : List AIMessage) (env : Env) (net : Net)
    (model : Option String) :
    (∀ e, (callOpenAI msgs env.OPENAI_API_KEY net
        (jsOrOpt model (jsOrOpt env.DEFAULT_MODEL "deepseek-chat"))).1 =
          Except.error e →
      env.DEEPSEEK_API_KEY ≠ "" →
      (callAI msgs env net Provider.openai model).2 =
        (callOpenAI msgs env.OPENAI_API_KEY net
          (jsOrOpt model (jsOrOpt env.DEFAULT_MODEL "deepseek-chat"))).2 ++
        [⟨Provider.deepseek, "deepseek-chat", msgs⟩]) ∧
    (∀ e r, (callOpenAI msgs env.OPENAI_API_KEY net
        (jsOrOpt model (jsOrOpt env.DEFAULT_MODEL "deepseek-chat"))).1 =
          Except.error e →
      env.DEEPSEEK_API_KEY ≠ "" →
      (callDeepSeek msgs env.DEEPSEEK_API_KEY net "deepseek-chat").1 =
        Except.ok r →
      (callAI msgs env net Provider.openai model).1 =
        Except.ok ⟨r.content, r.usage, Provider.deepseek⟩) ∧
    (∀ e, (callDeepSeek msgs env.DEEPSEEK_API_KEY net
        (jsOrOpt model "deepseek-chat")).1 = Except.error e →
      env.OPENAI_API_KEY ≠ "" →
      (callAI msgs env net Provider.deepseek model).2 =
        (callDeepSeek msgs env.DEEPSEEK_API_KEY net
          (jsOrOpt model "deepseek-chat")).2 ++
        [⟨Provider.openai, "gpt-3.5-turbo", msgs⟩]) ∧
    (∀ e r, (callDeepSeek msgs env.DEEPSEEK_API_KEY net
        (jsOrOpt model "deepseek-chat")).1 = Except.error e →
      env.OPENAI_API_KEY ≠ "" →
      (callOpenAI msgs env.OPENAI_API_KEY net "gpt-3.5-turbo").1 =
        Except.ok r →
      (callAI msgs env net Provider.deepseek model).1 =
        Except.ok ⟨r.content, r.usage, Provider.openai⟩) ∧
    (∀ e, (callOpenAI msgs env.OPENAI_API_KEY net
        (jsOrOpt model (jsOrOpt env.DEFAULT_MODEL "deepseek-chat"))).1 =
          Except.error e →
      env.DEEPSEEK_API_KEY = "" →
      callAI msgs env net Provider.openai model =
        (Except.error e,
          (callOpenAI msgs env.OPENAI_API_KEY net
            (jsOrOpt model (jsOrOpt env.DEFAULT_MODEL "deepseek-chat"))).2)) ∧
    (∀ e, (callDeepSeek msgs env.DEEPSEEK_API_KEY net
        (jsOrOpt model "deepseek-chat")).1 = Except.error e →
      env.OPENAI_API_KEY = "" →
      callAI msgs env net Provider.deepseek model =
        (Except.error e,
          (callDeepSeek msgs env.DEEPSEEK_API_KEY net
            (jsOrOpt model "deepseek-chat")).2)) := by
  refine ⟨fun e hfail hkey => ?_, fun e r hfail hkey hfb => ?_,
    fun e hfail hkey => ?_, fun e r hfail hkey hfb => ?_,
    fun e hfail hkey => ?_, fun e hfail hkey => ?_⟩
  · simp only [callAI, hfail, if_pos hkey]
    split <;> simp [callDeepSeek_snd msgs env.DEEPSEEK_API_KEY net "deepseek-chat" hkey]
  · simp only [callAI, hfail, hfb, if_pos hkey]
  · simp only [callAI, hfail, if_pos hkey]
    split <;> simp [callOpenAI_snd msgs env.OPENAI_API_KEY net "gpt-3.5-turbo" hkey]
  · simp only [callAI, hfail, hfb, if_pos hkey]
  · simp only [callAI, hfail, hkey, if_neg]
    simp
  · simp only [callAI, hfail, hkey, if_neg]
    simp


/-- Witness for C1: a failing primary with a succeeding fallback in both
directions, and both no-fallback cases. -/
theorem coordinator_fallback_witness :
    ((callAI msgs1 ⟨"ok", "dk", none, none⟩ netDSOkOAFail Provider.openai
        none).2 =
      [⟨Provider.openai, "deepseek-chat", msgs1⟩,
       ⟨Provider.deepseek, "deepseek-chat", msgs1⟩]) ∧
    ((callAI msgs1 ⟨"ok", "dk", none, none⟩ netDSOkOAFail Provider.openai
        none).1 = Except.ok ⟨"hello", some ⟨3, 4, 7⟩, Provider.deepseek⟩) ∧
    ((callAI msgs1 ⟨"ok", "dk", none, none⟩ netOAOkDSFail Provider.deepseek
        none).2 =
      [⟨Provider.deepseek, "deepseek-chat", msgs1⟩,
       ⟨Provider.openai, "gpt-3.5-turbo", msgs1⟩]) ∧
    ((callAI msgs1 ⟨"ok", "dk", none, none⟩ netOAOkDSFail Provider.deepseek
        none).1 = Except.ok ⟨"hello", some ⟨3, 4, 7⟩, Provider.openai⟩) ∧
    (callAI msgs1 ⟨"", "", none, none⟩ netAllFail Provider.openai none =
      (Except.error (AIError.missingCredential Provider.openai), [])) ∧
    (callAI msgs1 ⟨"", "", none, none⟩ netAllFail Provider.deepseek none =
      (Except.error (AIError.missingCredential Provider.deepseek), [])) :=
  ⟨(coordinator_fallback msgs1 ⟨"ok", "dk", none, none⟩ netDSOkOAFail
      none).1 (AIError.upstream Provider.openai 500 "boom") rfl (by decide),
   (coordinator_fallback msgs1 ⟨"ok", "dk", none, none⟩ netDSOkOAFail
      none).2.1 (AIError.upstream Provider.openai 500 "boom")
      ⟨"hello", some ⟨3, 4, 7⟩⟩ rfl (by decide) rfl,
   (coordinator_fallback msgs1 ⟨"ok", "dk", none, none⟩ netOAOkDSFail
      none).2.2.1 (AIError.upstream Provider.deepseek 500 "boom") rfl
      (by decide),
   (coordinator_fallback msgs1 ⟨"ok", "dk", none, none⟩ netOAOkDSFail
      none).2.2.2.1 (AIError.upstream Provider.deepseek 500 "boom")
      ⟨"hello", some ⟨3, 4, 7⟩⟩ rfl (by decide) rfl,
   (coordinator_fallback msgs1 ⟨"", "", none, none⟩ netAllFail
      none).2.2.2.2.1 (AIError.missingCredential Provider.openai) rfl rfl,
   (coordinator_fallback msgs1 ⟨"", "", none, none⟩ netAllFail
      none).2.2.2.2.2 (AIError.missingCredential Provider.deepseek) rfl rfl⟩

/-- `callOpenAI` issues at most one request. -/
theorem callOpenAI_snd_length (msgs : List AIMessage) (key : String)
    (net : Net) (m : String) : (callOpenAI msgs key net m).2.length ≤ 1 := by
  simp only [callOpenAI]
  split
  · simp
  · split
    · split <;> simp
    · simp

/-- `callDeepSeek` issues at most one request. -/
theorem callDeepSeek_snd_length (msgs : List AIMessage) (key : String)
    (net : Net) (m : String) : (callDeepSeek msgs key net m).2.length ≤ 1 := by
  simp only [callDeepSeek]
  split
  · simp
  · split <;> simp

/-- The coordinator issues at most two requests. -/
theorem callAI_snd_length (msgs : List AIMessage) (env : Env) (net : Net)
    (provider : Provider) (model : Option String) :
    (callAI msgs env net provider model).2.length ≤ 2 := by
  cases provider
  all_goals
    simp only [callAI]
    split
  · exact le_trans (callOpenAI_snd_length msgs env.OPENAI_API_KEY net _) (by norm_num)
  · split
    · split <;>
        · simp only [List.length_append]
          exact Nat.add_le_add (callOpenAI_snd_length msgs env.OPENAI_API_KEY net _)
            (callDeepSeek_snd_length msgs env.DEEPSEEK_API_KEY net _)
    · exact le_trans (callOpenAI_snd_length msgs env.OPENAI_API_KEY net _) (by norm_num)
  · exact le_trans (callDeepSeek_snd_length msgs env.DEEPSEEK_API_KEY net _) (by norm_num)
  · split
    · split <;>
        · simp only [List.length_append]
          exact Nat.add_le_add (callDeepSeek_snd_length msgs env.DEEPSEEK_API_KEY net _)
            (callOpenAI_snd_length msgs env.OPENAI_API_KEY net _)
    · exact le_trans (callDeepSeek_snd_length msgs env.DEEPSEEK_API_KEY net _) (by norm_num)


/-- C4: the coordinator issues at most two requests per invocation, and
when the fallback client call itself fails, that failure propagates
directly, with no further retry of either provider. -/
theorem coordinator_at_most_one_retry (msgs : List AIMessage) (env : Env)
    (net : Net) (provider : Provider) (model : Option String) :
    ((callAI msgs env net provider model).2.length ≤ 2) ∧
    (∀ e e2, (callOpenAI msgs env.OPENAI_API_KEY net
        (jsOrOpt model (jsOrOpt env.DEFAULT_MODEL "deepseek-chat"))).1 =
          Except.error e →
      env.DEEPSEEK_API_KEY ≠ "" →
      (callDeepSeek msgs env.DEEPSEEK_API_KEY net "deepseek-chat").1 =
        Except.error e2 →
      callAI msgs env net Provider.openai model =
        (Except.error e2,
          (callOpenAI msgs env.OPENAI_API_KEY net
            (jsOrOpt model (jsOrOpt env.DEFAULT_MODEL "deepseek-chat"))).2 ++
          [⟨Provider.deepseek, "deepseek-chat", msgs⟩])) ∧
    (∀ e e2, (callDeepSeek msgs env.DEEPSEEK_API_KEY net
        (jsOrOpt model "deepseek-chat")).1 = Except.error e →
      env.OPENAI_API_KEY ≠ "" →
      (callOpenAI msgs env.OPENAI_API_KEY net "gpt-3.5-turbo").1 =
        Except.error e2 →
      callAI msgs env net Provider.deepseek model =
        (Except.error e2,
          (callDeepSeek msgs env.DEEPSEEK_API_KEY net
            (jsOrOpt model "deepseek-chat")).2 ++
          [⟨Provider.openai, "gpt-3.5-turbo", msgs⟩])) := by
  refine ⟨callAI_snd_length msgs env net provider model,
    fun e e2 hfail hkey hfb => ?_, fun e e2 hfail hkey hfb => ?_⟩
  · simp only [callAI, hfail, hfb, if_pos hkey,
      callDeepSeek_snd msgs env.DEEPSEEK_API_KEY net "deepseek-chat" hkey]
  · simp only [callAI, hfail, hfb, if_pos hkey,
      callOpenAI_snd msgs env.OPENAI_API_KEY net "gpt-3.5-turbo" hkey]


/-- Witness for C4: both providers failing with both keys set, in both
preference orders, plus the trace bound at that input. -/
theorem coordinator_at_most_one_retry_witness :
    ((callAI msgs1 ⟨"ok", "dk", none, none⟩ netAllFail Provider.openai
        none).2.length ≤ 2) ∧
    (callAI msgs1 ⟨"ok", "dk", none, none⟩ netAllFail Provider.openai none =
      (Except.error (AIError.upstream Provider.deepseek 500 "boom"),
        [⟨Provider.openai, "deepseek-chat", msgs1⟩,
         ⟨Provider.deepseek, "deepseek-chat", msgs1⟩])) ∧
    (callAI msgs1 ⟨"ok", "dk", none, none⟩ netAllFail Provider.deepseek none =
      (Except.error (AIError.upstream Provider.openai 500 "boom"),
        [⟨Provider.deepseek, "deepseek-chat", msgs1⟩,
         ⟨Provider.openai, "gpt-3.5-turbo", msgs1⟩])) :=
  ⟨(coordinator_at_most_one_retry msgs1 ⟨"ok", "dk", none, none⟩ netAllFail
      Provider.openai none).1,
   (coordinator_at_most_one_retry msgs1 ⟨"ok", "dk", none, none⟩ netAllFail
      Provider.openai none).2.1 (AIError.upstream Provider.openai 500 "boom")
      (AIError.upstream Provider.deepseek 500 "boom") rfl (by decide) rfl,
   (coordinator_at_most_one_retry msgs1 ⟨"ok", "dk", none, none⟩ netAllFail
      Provider.deepseek none).2.2 (AIError.upstream Provider.deepseek 500 "boom")
      (AIError.upstream Provider.openai 500 "boom") rfl (by decide) rfl⟩

/-- C8: with both credentials blank, the coordinated query fails with the
preferred provider's missing-credential error (wrapped by the askAI
resolver), no fallback is attempted and no HTTP request is issued. -/
theorem askai_both_keys_missing (prompt : String) (model : Option String)
    (tag d : Option String) (net : Net) :
    (askAIResolver prompt (some Provider.openai) model ⟨"", "", tag, d⟩ net =
      (Except.error (ResolverError.askAIError
        (AIError.missingCredential Provider.openai)), [])) ∧
    (askAIResolver prompt (some Provider.deepseek) model ⟨"", "", tag, d⟩ net =
      (Except.error (ResolverError.askAIError
        (AIError.missingCredential Provider.deepseek)), [])) ∧
    (askAIResolver prompt none model ⟨"", "", tag, d⟩ net =
      (Except.error (ResolverError.askAIError
        (AIError.missingCredential Provider.openai)), [])) :=
  ⟨rfl, rfl, rfl⟩

/-- C9: on success, every resolver returns a usage record that is the
upstream usage passed through unchanged when present, and all-zero
(never absent) when the upstream response omits it. -/
theorem resolvers_usage_normalization (prompt : String) (model : Option String)
    (provider : Option Provider) (env : Env) (net : Net) :
    (env.OPENAI_API_KEY ≠ "" →
      (net ⟨Provider.openai, model.getD "gpt-3.5-turbo",
        [⟨Role.user, prompt⟩]⟩).ok = true →
      ∃ r, (chatGPTResolver prompt model env net).1 = Except.ok r ∧
        r.usage = normalizeUsage
          (net ⟨Provider.openai, model.getD "gpt-3.5-turbo",
            [⟨Role.user, prompt⟩]⟩).usage) ∧
    (env.DEEPSEEK_API_KEY ≠ "" →
      (net ⟨Provider.deepseek, model.getD "deepseek-chat",
        [⟨Role.user, prompt⟩]⟩).ok = true →
      ∃ r, (deepseekResolver prompt model env net).1 = Except.ok r ∧
        r.usage = normalizeUsage
          (net ⟨Provider.deepseek, model.getD "deepseek-chat",
            [⟨Role.user, prompt⟩]⟩).usage) ∧
    (∀ r cr, (askAIResolver prompt provider model env net).1 = Except.ok r →
      (callAI [⟨Role.user, prompt⟩] env net (provider.getD Provider.openai)
        model).1 = Except.ok cr →
      r.usage = normalizeUsage cr.usage) ∧
    (normalizeUsage none = ⟨0, 0, 0⟩) ∧
    (∀ u, normalizeUsage (some u) =
      ⟨u.prompt_tokens, u.completion_tokens, u.total_tokens⟩) := by
  refine ⟨fun hk hok => ?_, fun hk hok => ?_, fun r cr hr hc => ?_, rfl,
    fun u => rfl⟩
  · refine ⟨⟨extractContent (net ⟨Provider.openai, model.getD "gpt-3.5-turbo",
        [⟨Role.user, prompt⟩]⟩).choices, model.getD "gpt-3.5-turbo", "openai",
        normalizeUsage (net ⟨Provider.openai, model.getD "gpt-3.5-turbo",
          [⟨Role.user, prompt⟩]⟩).usage⟩, ?_, rfl⟩
    simp only [chatGPTResolver,
      callOpenAI_ok [⟨Role.user, prompt⟩] env.OPENAI_API_KEY net
        (model.getD "gpt-3.5-turbo") hk hok]
  · refine ⟨⟨extractContent (net ⟨Provider.deepseek, model.getD "deepseek-chat",
        [⟨Role.user, prompt⟩]⟩).choices, model.getD "deepseek-chat", "deepseek",
        normalizeUsage (net ⟨Provider.deepseek, model.getD "deepseek-chat",
          [⟨Role.user, prompt⟩]⟩).usage⟩, ?_, rfl⟩
    simp only [deepseekResolver,
      callDeepSeek_ok [⟨Role.user, prompt⟩] env.DEEPSEEK_API_KEY net
        (model.getD "deepseek-chat") hk hok]
  · simp only [askAIResolver, hc] at hr
    injection hr with h
    rw [← h]


/-- Witness for C9: a response carrying usage `(3,4,7)` and one with no
usage object, plus a coordinated query. -/
theorem resolvers_usage_normalization_witness :
    (∃ r, (chatGPTResolver "hi" none ⟨"k", "", none, none⟩ netAllOk).1 =
        Except.ok r ∧ r.usage = ⟨3, 4, 7⟩) ∧
    (∃ r, (deepseekResolver "hi" none ⟨"", "dk", none, none⟩
        netNoChoices).1 = Except.ok r ∧ r.usage = ⟨0, 0, 0⟩) ∧
    ((⟨"hello", "gpt-3.5-turbo", "openai", ⟨3, 4, 7⟩⟩ : AIResponse).usage =
      normalizeUsage (some ⟨3, 4, 7⟩)) :=
  ⟨(resolvers_usage_normalization "hi" none none ⟨"k", "", none, none⟩
      netAllOk).1 (by decide) rfl,
   (resolvers_usage_normalization "hi" none none ⟨"", "dk", none, none⟩
      netNoChoices).2.1 (by decide) rfl,
   (resolvers_usage_normalization "hi" none (some Provider.openai)
      ⟨"k", "", none, none⟩ netAllOk).2.2.1
      ⟨"hello", "gpt-3.5-turbo", "openai", ⟨3, 4, 7⟩⟩
      ⟨"hello", some ⟨3, 4, 7⟩, Provider.openai⟩ rfl rfl⟩

/-- C3 counterexample: with an OpenAI key, no override and no configured
default model, the coordinator resolves and sends the effective model
`'deepseek-chat'` (as the issued request shows), yet the askAI resolver's
response reports `'gpt-3.5-turbo'` as its `model` field -- so the reported
model is not computed the same way as the coordinator's resolution step. -/
theorem askai_model_echo_cex :
    ((askAIResolver "hi" none none ⟨"sk-oa", "", none, none⟩ netAllOk).1 =
      Except.ok ⟨"hello", "gpt-3.5-turbo", "openai", ⟨3, 4, 7⟩⟩) ∧
    ((askAIResolver "hi" none none ⟨"sk-oa", "", none, none⟩ netAllOk).2 =
      [⟨Provider.openai, "deepseek-chat", [⟨Role.user, "hi"⟩]⟩]) ∧
    ("gpt-3.5-turbo" ≠ "deepseek-chat") :=
  ⟨rfl, rfl, by decide⟩

/-- C3 (amended): the `model` field of a successful askAI response equals
the explicit override if given (and non-empty), else `'deepseek-chat'`
when the requested provider is deepseek and `'gpt-3.5-turbo'` otherwise --
which on the openai path ignores `DEFAULT_MODEL` and so can differ from
the effective model the coordinator sent. -/
theorem askai_model_echo (prompt : String) (provider : Option Provider)
    (model : Option String) (env : Env) (net : Net) (r : AIResponse)
    (h : (askAIResolver prompt provider model env net).1 = Except.ok r) :
    r.model = jsOrOpt model
      (match provider.getD Provider.openai with
       | Provider.deepseek => "deepseek-chat"
       | Provider.openai => "gpt-3.5-turbo") := by
  rcases hc : (callAI [⟨Role.user, prompt⟩] env net
      (provider.getD Provider.openai) model).1 with e | cr
  · simp only [askAIResolver, hc] at h
    exact Except.noConfusion h
  · simp only [askAIResolver, hc] at h
    injection h with h2
    rw [← h2]

/-- Witness for the amended C3 at a concrete successful query. -/
theorem askai_model_echo_witness :
    (⟨"hello", "gpt-3.5-turbo", "openai", ⟨3, 4, 7⟩⟩ : AIResponse).model =
      "gpt-3.5-turbo" :=
  askai_model_echo "hi" none none ⟨"k", "", none, none⟩ netAllOk
    ⟨"hello", "gpt-3.5-turbo", "openai", ⟨3, 4, 7⟩⟩ rfl

/-- C10: an empty-string credential behaves exactly like an absent one:
the clients reject it as a missing credential, the coordinator with both
keys empty attempts no fallback and issues no request, and with only the
DeepSeek key non-empty a query preferring openai succeeds through the
DeepSeek fallback. -/
theorem empty_key_is_absent (msgs : List AIMessage) (net : Net) (m : String)
    (model : Option String) (tag d : Option String) (k : String) :
    (callOpenAI msgs "" net m =
      (Except.error (AIError.missingCredential Provider.openai), [])) ∧
    (callDeepSeek msgs "" net m =
      (Except.error (AIError.missingCredential Provider.deepseek), [])) ∧
    (callAI msgs ⟨"", "", tag, d⟩ net Provider.openai model =
      (Except.error (AIError.missingCredential Provider.openai), [])) ∧
    (callAI msgs ⟨"", "", tag, d⟩ net Provider.deepseek model =
      (Except.error (AIError.missingCredential Provider.deepseek), [])) ∧
    (k ≠ "" → (net ⟨Provider.deepseek, "deepseek-chat", msgs⟩).ok = true →
      callAI msgs ⟨"", k, tag, d⟩ net Provider.openai model =
        (Except.ok ⟨extractContent
            (net ⟨Provider.deepseek, "deepseek-chat", msgs⟩).choices,
          (net ⟨Provider.deepseek, "deepseek-chat", msgs⟩).usage,
          Provider.deepseek⟩,
          [⟨Provider.deepseek, "deepseek-chat", msgs⟩])) := by
  refine ⟨rfl, rfl, rfl, rfl, fun hk hok => ?_⟩
  have h1 := callDeepSeek_ok msgs k net "deepseek-chat" hk hok
  have h2 := callDeepSeek_snd msgs k net "deepseek-chat" hk
  simp only [callAI, h1, h2, if_pos hk]
  rfl


/-- Witness for C10: empty OpenAI key, DeepSeek key `"dk"`, a responsive
network -- the coordinated query succeeds via DeepSeek alone. -/
theorem empty_key_is_absent_witness :
    callAI msgs1 ⟨"", "dk", none, none⟩ netAllOk Provider.openai none =
      (Except.ok ⟨"hello", some ⟨3, 4, 7⟩, Provider.deepseek⟩,
        [⟨Provider.deepseek, "deepseek-chat", msgs1⟩]) :=
  (empty_key_is_absent msgs1 netAllOk "m" none none none
    "dk").2.2.2.2 (by decide) rfl

end ApolloServer
